import Mathlib

/-!
Shallow embedding of the Coin98 Solana wallet adapter
(src/solana/src/adapter.ts, class Coin98WalletAdapter).

The adapter is a state-translation shim over a browser-injected wallet
object.  Its mutable state is the triple of fields `_connecting`,
`_wallet`, `_publicKey`; every public method is modelled as a pure
function from the adapter state and the current behaviour of the
external world (the injected wallet object and the `window` globals) to
a new state, an `Except` result (`.error` models a thrown exception),
and the ordered list of observable effects (events emitted on the
adapter, calls issued to the injected wallet, sleeps).

External collaborators (`@solana/web3.js` PublicKey parsing, `bs58`
decoding, `TextEncoder`/`TextDecoder`) are modelled concretely from
their published behaviour, since they are not part of this repository.
-/

namespace Coin98

/-- Error taxonomy of `@solana/wallet-adapter-base` as thrown by the
adapter, plus `jsError` for a raw error thrown by the injected wallet
itself (outside the taxonomy). -/
inductive Err where
  | walletNotFoundError
  | walletNotInstalledError
  | walletAccountError (msg : String)
  | walletPublicKeyError (msg : String)
  | walletNotConnectedError
  | walletSignTransactionError (msg : String)
  | jsError (msg : String)
deriving DecidableEq

/-- Whether an error is one of the adapter's taxonomy kinds, as opposed
to a raw error of the injected wallet propagated unwrapped. -/
def Err.inTaxonomy : Err → Bool
  | .jsError _ => false
  | _ => true

/-- Model of a `@solana/web3.js` `PublicKey`: the 32 decoded bytes. -/
structure PublicKey where
  bytes : List Nat
deriving DecidableEq

/-- Model of a `@solana/web3.js` `Transaction`: an opaque payload plus
the signatures attached so far. -/
structure Transaction where
  payload : String
  sigs : List (PublicKey × List Nat)
deriving DecidableEq

/-- The `ResponseType` of adapter.ts: intersection of `SIGN_REQUEST`
(`signature`, `publicKey`) and `SIGN_MESSAGE` (`address`, `msg`, `sig`). -/
structure ResponseType where
  signature : String
  publicKey : String
  address : String
  msg : String
  sig : String
deriving DecidableEq

/-- A parameter passed in the `params` array of `wallet.request`:
either a transaction (signTransaction) or a string (signMessage). -/
inductive ReqParam where
  | tx (t : Transaction)
  | str (s : String)
deriving DecidableEq

/-- Observable effects of one adapter method call, in order: events
emitted on the adapter (`emit*`), calls issued to the injected wallet
(`wallet*`), and sleeps. -/
inductive Event where
  | emitConnect
  | emitDisconnect
  | emitError (e : Err)
  | walletConnect
  | walletDisconnect
  | walletRequest (method : String) (params : List ReqParam)
  | slept (ms : Nat)
deriving DecidableEq

/-- Behaviour of the injected `Coin98Wallet` object at the time of one
adapter method call: the identity flag, what `isConnected()` reports,
and the outcomes of `connect()`, `disconnect()` and `request(...)`
(`.error m` models the call rejecting with a raw error of message `m`). -/
structure WalletBehavior where
  isCoin98 : Bool
  isConnected : Bool
  connectResult : Except String (List String)
  disconnectResult : Except String Unit
  requestResult : String → List ReqParam → Except String ResponseType

/-- The external world at the time of one adapter method call:
`sol` is the current value of `window.coin98?.sol` (`none` when `window`
is undefined or the global is absent), `coin98Present` whether
`window.coin98` exists (used by `ready`), and `stored` the current
behaviour of the wallet object held in `_wallet`, when any. -/
structure Env where
  coin98Present : Bool
  sol : Option WalletBehavior
  stored : WalletBehavior

/-- The adapter's mutable fields: `_connecting`, `_wallet` (presence of
the stored injected-wallet handle), `_publicKey`. -/
structure AdapterState where
  _connecting : Bool
  _wallet : Option Unit
  _publicKey : Option PublicKey
deriving DecidableEq

/-- State established by the constructor. -/
def initialState : AdapterState :=
  { _connecting := false, _wallet := none, _publicKey := none }

/-- Getter `publicKey`. -/
def publicKey (s : AdapterState) : Option PublicKey := s._publicKey

/-- Getter `ready`: window is defined and exposes `window.coin98`. -/
def ready (env : Env) : Bool := env.coin98Present

/-- Getter `connecting`. -/
def connecting (s : AdapterState) : Bool := s._connecting

/-- Getter `connected`: `!!this._wallet?.isConnected()` — false when no
handle is stored, otherwise whatever the stored wallet currently reports. -/
def connected (s : AdapterState) (env : Env) : Bool :=
  s._wallet.isSome && env.stored.isConnected

/-- Result of one adapter method call: the state on exit, the returned
value or thrown error, and the ordered observable effects. -/
structure MethodResult (α : Type) where
  state : AdapterState
  result : Except Err α
  events : List Event

/-- The message of the error thrown by the web3.js `PublicKey`
constructor on a malformed input. -/
def invalidPublicKeyMsg : String := "Invalid public key input"

/-- The message of the error thrown by `bs58.decode` on a character
outside the base58 alphabet. -/
def nonBase58Msg : String := "Non-base58 character"

/-- The base58 alphabet used by `bs58`. -/
def base58Alphabet : List Char :=
  "123456789ABCDEFGHJKLMNPQRSTUVWXYZabcdefghijkmnopqrstuvwxyz".data

/-- Big-endian base-256 digits, with explicit fuel (the fuel only needs
to dominate the number of digits, so the number itself suffices). -/
def natToBytesBEAux : Nat → Nat → List Nat
  | _, 0 => []
  | 0, _ + 1 => []
  | fuel + 1, n + 1 => natToBytesBEAux fuel ((n + 1) / 256) ++ [(n + 1) % 256]

/-- Big-endian base-256 digits of a natural number (no leading zero). -/
def natToBytesBE (n : Nat) : List Nat := natToBytesBEAux n n

/-- Model of `bs58.decode`: `none` models the throw on a character
outside the alphabet; leading `'1'` characters become leading zero
bytes. -/
def bs58Decode (s : String) : Option (List Nat) :=
  match s.data.mapM (fun c => base58Alphabet.indexOf? c) with
  | none => none
  | some ds =>
      let value := ds.foldl (fun acc d => acc * 58 + d) 0
      let zeros := (ds.takeWhile (· = 0)).length
      some (List.replicate zeros 0 ++ natToBytesBE value)

/-- Model of `new PublicKey(string)` from web3.js: base58-decode and
require exactly 32 bytes; `none` models the constructor throwing. -/
def parsePublicKey (s : String) : Option PublicKey :=
  match bs58Decode s with
  | none => none
  | some bytes => if bytes.length = 32 then some ⟨bytes⟩ else none

/-- Model of web3.js `Transaction.addSignature`: record the signature
for the given key on the transaction. -/
def addSignature (t : Transaction) (pk : PublicKey) (sig : List Nat) : Transaction :=
  { t with sigs := t.sigs ++ [(pk, sig)] }

/-- The method identifier sent through `wallet.request` by both
`signTransaction` and `signMessage`. -/
def solSignMethod : String := "sol_sign"

/-- Default milliseconds of the `sleep` utility. -/
def sleepDefaultMs : Nat := 500

/-- Method `connect()`.  The whole body is a try/catch/finally: on any
thrown error the catch emits an `error` event and rethrows, and the
finally clause clears `_connecting` on every exit path, including the
early no-op return. -/
def connect (s : AdapterState) (env : Env) : MethodResult Unit :=
  if connected s env || s._connecting then
    { state := { s with _connecting := false }, result := .ok (), events := [] }
  else
    let s1 : AdapterState := { s with _connecting := true }
    match env.sol with
    | none =>
        { state := { s1 with _connecting := false },
          result := .error .walletNotFoundError,
          events := [.emitError .walletNotFoundError] }
    | some wallet =>
        if !wallet.isCoin98 then
          { state := { s1 with _connecting := false },
            result := .error .walletNotInstalledError,
            events := [.emitError .walletNotInstalledError] }
        else
          match wallet.connectResult with
          | .error m =>
              { state := { s1 with _connecting := false },
                result := .error (.walletAccountError m),
                events := [.walletConnect, .emitError (.walletAccountError m)] }
          | .ok accounts =>
              match accounts.head?.bind parsePublicKey with
              | none =>
                  { state := { s1 with _connecting := false },
                    result := .error (.walletPublicKeyError invalidPublicKeyMsg),
                    events := [.walletConnect,
                               .emitError (.walletPublicKeyError invalidPublicKeyMsg)] }
              | some pk =>
                  { state := { _connecting := false, _wallet := some (),
                               _publicKey := some pk },
                    result := .ok (),
                    events := [.walletConnect, .emitConnect] }

/-- Method `disconnect()`.  Clears the handle and key before awaiting
the wallet's own disconnect; that await is not guarded, so a rejection
there propagates as a raw error and skips the `disconnect` emission. -/
def disconnect (s : AdapterState) (env : Env) : MethodResult Unit :=
  match s._wallet with
  | some _ =>
      let s1 : AdapterState := { s with _wallet := none, _publicKey := none }
      match env.stored.disconnectResult with
      | .error m =>
          { state := s1, result := .error (.jsError m), events := [.walletDisconnect] }
      | .ok _ =>
          { state := s1, result := .ok (),
            events := [.walletDisconnect, .emitDisconnect] }
  | none =>
      { state := s, result := .ok (), events := [.emitDisconnect] }

/-- Inner try block of `signTransaction`: issue the request, parse the
returned public key, base58-decode the returned signature, attach it;
any failure is wrapped as `WalletSignTransactionError`. -/
def signViaWallet (w : WalletBehavior) (transaction : Transaction) :
    Except Err Transaction :=
  match w.requestResult solSignMethod [.tx transaction] with
  | .error m => .error (.walletSignTransactionError m)
  | .ok response =>
      match parsePublicKey response.publicKey with
      | none => .error (.walletSignTransactionError invalidPublicKeyMsg)
      | some pk =>
          match bs58Decode response.signature with
          | none => .error (.walletSignTransactionError nonBase58Msg)
          | some signature => .ok (addSignature transaction pk signature)

/-- Method `signTransaction(transaction)`.  Throws
`WalletNotConnectedError` with no wallet handle; the outer catch emits
every thrown error and rethrows. -/
def signTransaction (s : AdapterState) (env : Env) (transaction : Transaction) :
    MethodResult Transaction :=
  match s._wallet with
  | none =>
      { state := s, result := .error .walletNotConnectedError,
        events := [.emitError .walletNotConnectedError] }
  | some _ =>
      let ev : List Event := [.walletRequest solSignMethod [.tx transaction]]
      match signViaWallet env.stored transaction with
      | .error e =>
          { state := s, result := .error e, events := ev ++ [.emitError e] }
      | .ok t =>
          { state := s, result := .ok t, events := ev }

/-- Method `signAllTransactions(transactions)`: a sequential loop that
awaits `signTransaction` on each element in order, then sleeps
(default 500ms), collecting the signed transactions in order.  An
error from `signTransaction` propagates and stops the loop. -/
def signAllTransactions (env : Env) :
    AdapterState → List Transaction → MethodResult (List Transaction)
  | s, [] => { state := s, result := .ok [], events := [] }
  | s, transaction :: rest =>
      let r := signTransaction s env transaction
      match r.result with
      | .error e => { state := r.state, result := .error e, events := r.events }
      | .ok signed =>
          let r2 := signAllTransactions env r.state rest
          { state := r2.state,
            result := r2.result.map (signed :: ·),
            events := r.events ++ [.slept sleepDefaultMs] ++ r2.events }

/-- Model of the WHATWG `TextEncoder` used by `signMessage`: encode a
Unicode scalar value to its UTF-8 bytes. -/
def utf8EncodeCodepoint (c : Nat) : List Nat :=
  if c < 0x80 then [c]
  else if c < 0x800 then [0xC0 + c / 64, 0x80 + c % 64]
  else if c < 0x10000 then [0xE0 + c / 4096, 0x80 + c / 64 % 64, 0x80 + c % 64]
  else [0xF0 + c / 262144, 0x80 + c / 4096 % 64, 0x80 + c / 64 % 64, 0x80 + c % 64]

/-- UTF-8 bytes of a string (model of `new TextEncoder().encode`). -/
def utf8Encode (s : String) : List Nat :=
  s.data.flatMap (fun c => utf8EncodeCodepoint c.toNat)

/-- The U+FFFD replacement character emitted by a lossy decoder. -/
def replacementChar : Char := Char.ofNat 0xFFFD

/-- Decoder state of the WHATWG UTF-8 decode algorithm: the code point
accumulated so far, how many continuation bytes are still needed, and
the admissible range of the next byte. -/
structure Utf8DecState where
  codePoint : Nat
  bytesNeeded : Nat
  lower : Nat
  upper : Nat
deriving DecidableEq

/-- Initial (and reset) decoder state. -/
def initDecState : Utf8DecState := { codePoint := 0, bytesNeeded := 0, lower := 0x80, upper := 0xBF }

/-- Classification of a byte arriving with no sequence pending. -/
inductive LeadResult where
  | ascii (c : Nat)
  | multi (st : Utf8DecState)
  | invalid
deriving DecidableEq

/-- Lead-byte step of the WHATWG UTF-8 decode algorithm. -/
def classifyLead (b : Nat) : LeadResult :=
  if b ≤ 0x7F then .ascii b
  else if 0xC2 ≤ b ∧ b ≤ 0xDF then
    .multi { codePoint := b - 0xC0, bytesNeeded := 1, lower := 0x80, upper := 0xBF }
  else if 0xE0 ≤ b ∧ b ≤ 0xEF then
    .multi { codePoint := b - 0xE0, bytesNeeded := 2,
             lower := if b = 0xE0 then 0xA0 else 0x80,
             upper := if b = 0xED then 0x9F else 0xBF }
  else if 0xF0 ≤ b ∧ b ≤ 0xF4 then
    .multi { codePoint := b - 0xF0, bytesNeeded := 3,
             lower := if b = 0xF0 then 0x90 else 0x80,
             upper := if b = 0xF4 then 0x8F else 0xBF }
  else .invalid

/-- Model of the WHATWG `TextDecoder` utf-8 decode algorithm
(non-fatal): well-formed sequences decode exactly, malformed input
yields U+FFFD replacement characters.  A byte out of range while a
sequence is pending is reprocessed as a fresh lead byte, per the
algorithm's prepend step. -/
def utf8DecodeGo : Utf8DecState → List Nat → List Char
  | st, [] => if st.bytesNeeded = 0 then [] else [replacementChar]
  | st, b :: bs =>
    if st.bytesNeeded = 0 then
      match classifyLead b with
      | .ascii c => Char.ofNat c :: utf8DecodeGo initDecState bs
      | .multi st1 => utf8DecodeGo st1 bs
      | .invalid => replacementChar :: utf8DecodeGo initDecState bs
    else
      if st.lower ≤ b ∧ b ≤ st.upper then
        let cp := st.codePoint * 64 + (b - 0x80)
        if st.bytesNeeded = 1 then Char.ofNat cp :: utf8DecodeGo initDecState bs
        else utf8DecodeGo { codePoint := cp, bytesNeeded := st.bytesNeeded - 1,
                            lower := 0x80, upper := 0xBF } bs
      else
        match classifyLead b with
        | .ascii c => replacementChar :: Char.ofNat c :: utf8DecodeGo initDecState bs
        | .multi st1 => replacementChar :: utf8DecodeGo st1 bs
        | .invalid => replacementChar :: replacementChar :: utf8DecodeGo initDecState bs

/-- Decode a byte list as UTF-8 text. -/
def utf8DecodeBytes (bytes : List Nat) : List Char := utf8DecodeGo initDecState bytes

/-- Lossy UTF-8 decoding of bytes to a string (model of
`new TextDecoder("utf-8").decode`). -/
def textDecode (bytes : List Nat) : String := String.mk (utf8DecodeBytes bytes)

/-- Method `signMessage(message)`.  Throws `WalletNotConnectedError`
with no wallet handle; otherwise decodes the bytes as UTF-8 text, sends
the text through `wallet.request`, and re-encodes the returned `sig`
string as UTF-8 bytes.  The outer catch emits every thrown error. -/
def signMessage (s : AdapterState) (env : Env) (message : List Nat) :
    MethodResult (List Nat) :=
  match s._wallet with
  | none =>
      { state := s, result := .error .walletNotConnectedError,
        events := [.emitError .walletNotConnectedError] }
  | some _ =>
      let decodedMessage := textDecode message
      match env.stored.requestResult solSignMethod [.str decodedMessage] with
      | .error m =>
          { state := s, result := .error (.walletSignTransactionError m),
            events := [.walletRequest solSignMethod [.str decodedMessage],
                       .emitError (.walletSignTransactionError m)] }
      | .ok response =>
          { state := s, result := .ok (utf8Encode response.sig),
            events := [.walletRequest solSignMethod [.str decodedMessage]] }

/-- One invocation of a public adapter method, with the behaviour of
the external world at that time. -/
inductive Op where
  | opConnect (env : Env)
  | opDisconnect (env : Env)
  | opSignTransaction (env : Env) (t : Transaction)
  | opSignAllTransactions (env : Env) (ts : List Transaction)
  | opSignMessage (env : Env) (m : List Nat)

/-- The state on exit of one public method invocation. -/
def step (s : AdapterState) : Op → AdapterState
  | .opConnect env => (connect s env).state
  | .opDisconnect env => (disconnect s env).state
  | .opSignTransaction env t => (signTransaction s env t).state
  | .opSignAllTransactions env ts => (signAllTransactions env s ts).state
  | .opSignMessage env m => (signMessage s env m).state

/-- The adapter state after a sequence of public method invocations
starting from the constructor's state. -/
def run (ops : List Op) : AdapterState := ops.foldl step initialState

/-- The data-model invariant: the stored public key is absent exactly
when the stored wallet handle is absent. -/
def inv (s : AdapterState) : Prop := s._publicKey = none ↔ s._wallet = none

instance (s : AdapterState) : Decidable (inv s) := by unfold inv; infer_instance

/-- The signed transaction produced by a successful inner signing
pipeline (the input transaction itself when the pipeline fails). -/
def signedOf (w : WalletBehavior) (t : Transaction) : Transaction :=
  match signViaWallet w t with
  | .ok t2 => t2
  | .error _ => t

/-- Whether an event is an underlying wallet connection call. -/
def isWalletConnectEv : Event → Bool
  | .walletConnect => true
  | _ => false

/-- Number of underlying wallet connection calls in an event trace. -/
def countWalletConnect (evs : List Event) : Nat :=
  (evs.filter isWalletConnectEv).length

/-- A valid base58 account string: the all-zero 32-byte key. -/
def goodPkStr : String := "11111111111111111111111111111111"

/-- The public key parsed from `goodPkStr`. -/
def goodPk : PublicKey := ⟨List.replicate 32 0⟩

/-- A malformed account string (contains a character outside base58). -/
def badPkStr : String := "invalid-account"

/-- A sample wallet response with well-formed fields. -/
def resp0 : ResponseType :=
  { signature := goodPkStr, publicKey := goodPkStr, address := "addr",
    msg := "msg", sig := "sig" }

/-- A sample transaction. -/
def tx0 : Transaction := { payload := "t0", sigs := [] }

/-- A second sample transaction. -/
def tx1 : Transaction := { payload := "t1", sigs := [] }

/-- A well-behaved injected wallet. -/
def wOk : WalletBehavior :=
  { isCoin98 := true, isConnected := true, connectResult := .ok [goodPkStr],
    disconnectResult := .ok (), requestResult := fun _ _ => .ok resp0 }

/-- World with the well-behaved wallet installed and stored. -/
def envOk : Env := { coin98Present := true, sol := some wOk, stored := wOk }

/-- A wallet whose own `disconnect()` rejects. -/
def wDiscFail : WalletBehavior := { wOk with disconnectResult := .error "boom" }

/-- World where the stored wallet's `disconnect()` rejects. -/
def envDiscFail : Env := { coin98Present := true, sol := some wDiscFail, stored := wDiscFail }

/-- A wallet that reports `isConnected() = false` but otherwise behaves
like `wOk`. -/
def wReconn : WalletBehavior := { wOk with isConnected := false }

/-- World after the wallet has dropped the session on its side. -/
def envReconn : Env := { coin98Present := true, sol := some wReconn, stored := wReconn }

/-- A wallet that reports `isConnected() = false` and returns a
malformed account string from `connect()`. -/
def wStale : WalletBehavior :=
  { wOk with isConnected := false, connectResult := .ok [badPkStr] }

/-- World with the stale, malformed-account wallet. -/
def envStale : Env := { coin98Present := true, sol := some wStale, stored := wStale }

/-- The adapter state reached by one successful `connect()` against the
well-behaved wallet. -/
def connectedState : AdapterState :=
  { _connecting := false, _wallet := some (), _publicKey := some goodPk }

/-- Packing the code point of a character yields the character back. -/
theorem char_ofNat_eq (c : Char) (n : Nat) (h : n = c.toNat) : Char.ofNat n = c := by
  rw [h, Char.ofNat_toNat]

/-- The WHATWG decoder consumes the UTF-8 encoding of one character
exactly, for every Unicode scalar value. -/
theorem utf8DecodeGo_encodeChar (c : Char) (rest : List Nat) :
    utf8DecodeGo initDecState (utf8EncodeCodepoint c.toNat ++ rest) =
      c :: utf8DecodeGo initDecState rest := by
  have hv : c.toNat < 0xd800 ∨ (0xdfff < c.toNat ∧ c.toNat < 0x110000) := c.valid
  by_cases h1 : c.toNat < 0x80
  · have e : utf8EncodeCodepoint c.toNat = [c.toNat] := by
      unfold utf8EncodeCodepoint; rw [if_pos h1]
    rw [e]
    have hle : c.toNat ≤ 0x7F := by omega
    simp [utf8DecodeGo, classifyLead, initDecState, hle, Char.ofNat_toNat]
  · by_cases h2 : c.toNat < 0x800
    · have e : utf8EncodeCodepoint c.toNat = [0xC0 + c.toNat / 64, 0x80 + c.toNat % 64] := by
        unfold utf8EncodeCodepoint; rw [if_neg h1, if_pos h2]
      rw [e]
      have hb0a : ¬ (0xC0 + c.toNat / 64 ≤ 0x7F) := by omega
      have hb0b : 0xC2 ≤ 0xC0 + c.toNat / 64 ∧ 0xC0 + c.toNat / 64 ≤ 0xDF := by omega
      have hb1 : 0x80 ≤ 0x80 + c.toNat % 64 ∧ 0x80 + c.toNat % 64 ≤ 0xBF := by omega
      simp [utf8DecodeGo, classifyLead, initDecState, hb0a, hb0b, hb1]
      exact char_ofNat_eq c _ (by omega)
    · by_cases h3 : c.toNat < 0x10000
      · have e : utf8EncodeCodepoint c.toNat =
            [0xE0 + c.toNat / 4096, 0x80 + c.toNat / 64 % 64, 0x80 + c.toNat % 64] := by
          unfold utf8EncodeCodepoint; rw [if_neg h1, if_neg h2, if_pos h3]
        rw [e]
        have hb0a : ¬ (0xE0 + c.toNat / 4096 ≤ 0x7F) := by omega
        have hb0b : ¬ (0xC2 ≤ 0xE0 + c.toNat / 4096 ∧ 0xE0 + c.toNat / 4096 ≤ 0xDF) := by omega
        have hb0c : 0xE0 ≤ 0xE0 + c.toNat / 4096 ∧ 0xE0 + c.toNat / 4096 ≤ 0xEF := by omega
        have hlow : (if c.toNat / 4096 = 0 then 160 else 128) ≤ 128 + c.toNat / 64 % 64 := by
          split <;> omega
        have hlow2 : (if 224 + c.toNat / 4096 = 224 then 160 else 128) ≤
            128 + c.toNat / 64 % 64 := by split <;> omega
        have hupp : 128 + c.toNat / 64 % 64 ≤ (if c.toNat / 4096 = 13 then 159 else 191) := by
          split <;> omega
        have hupp2 : 128 + c.toNat / 64 % 64 ≤
            (if 224 + c.toNat / 4096 = 237 then 159 else 191) := by split <;> omega
        have hb2 : 0x80 ≤ 0x80 + c.toNat % 64 ∧ 0x80 + c.toNat % 64 ≤ 0xBF := by omega
        simp [utf8DecodeGo, classifyLead, initDecState, hb0a, hb0b, hb0c, hlow, hlow2, hupp,
          hupp2, hb2]
        exact char_ofNat_eq c _ (by omega)
      · have h4 : c.toNat < 0x110000 := by omega
        have e : utf8EncodeCodepoint c.toNat =
            [0xF0 + c.toNat / 262144, 0x80 + c.toNat / 4096 % 64,
             0x80 + c.toNat / 64 % 64, 0x80 + c.toNat % 64] := by
          unfold utf8EncodeCodepoint; rw [if_neg h1, if_neg h2, if_neg h3]
        rw [e]
        have hb0a : ¬ (0xF0 + c.toNat / 262144 ≤ 0x7F) := by omega
        have hb0b : ¬ (0xC2 ≤ 0xF0 + c.toNat / 262144 ∧ 0xF0 + c.toNat / 262144 ≤ 0xDF) := by
          omega
        have hb0c : ¬ (0xE0 ≤ 0xF0 + c.toNat / 262144 ∧ 0xF0 + c.toNat / 262144 ≤ 0xEF) := by
          omega
        have hb0d : 0xF0 ≤ 0xF0 + c.toNat / 262144 ∧ 0xF0 + c.toNat / 262144 ≤ 0xF4 := by omega
        have hlow : (if c.toNat / 262144 = 0 then 144 else 128) ≤
            128 + c.toNat / 4096 % 64 := by split <;> omega
        have hlow2 : (if 240 + c.toNat / 262144 = 240 then 144 else 128) ≤
            128 + c.toNat / 4096 % 64 := by split <;> omega
        have hupp : 128 + c.toNat / 4096 % 64 ≤
            (if c.toNat / 262144 = 4 then 143 else 191) := by split <;> omega
        have hupp2 : 128 + c.toNat / 4096 % 64 ≤
            (if 240 + c.toNat / 262144 = 244 then 143 else 191) := by split <;> omega
        have hb2 : 0x80 ≤ 0x80 + c.toNat / 64 % 64 ∧ 0x80 + c.toNat / 64 % 64 ≤ 0xBF := by omega
        have hb3 : 0x80 ≤ 0x80 + c.toNat % 64 ∧ 0x80 + c.toNat % 64 ≤ 0xBF := by omega
        simp [utf8DecodeGo, classifyLead, initDecState, hb0a, hb0b, hb0c, hb0d, hlow, hlow2,
          hupp, hupp2, hb2, hb3]
        exact char_ofNat_eq c _ (by omega)

/-- The WHATWG decoder inverts the UTF-8 encoding of a character list. -/
theorem utf8DecodeGo_encodeList (l : List Char) (rest : List Nat) :
    utf8DecodeGo initDecState ((l.flatMap fun c => utf8EncodeCodepoint c.toNat) ++ rest) =
      l ++ utf8DecodeGo initDecState rest := by
  induction l with
  | nil => simp
  | cons c cs ih =>
      rw [List.flatMap_cons, List.append_assoc, utf8DecodeGo_encodeChar, ih]
      rfl

/-- Decoding the UTF-8 encoding of any string yields that string. -/
theorem textDecode_utf8Encode (s : String) : textDecode (utf8Encode s) = s := by
  have h0 : utf8DecodeGo initDecState ([] : List Nat) = [] := rfl
  show String.mk (utf8DecodeBytes (utf8Encode s)) = s
  rw [show utf8Encode s = ((s.data.flatMap fun c => utf8EncodeCodepoint c.toNat) ++ []) by
    simp [utf8Encode]]
  show String.mk (utf8DecodeGo initDecState _) = s
  rw [utf8DecodeGo_encodeList s.data [], h0, List.append_nil]

/-- Every error of the inner signing pipeline is a
`WalletSignTransactionError`. -/
theorem signViaWallet_error (w : WalletBehavior) (t : Transaction) (e : Err) :
    signViaWallet w t = .error e → ∃ m, e = .walletSignTransactionError m := by
  unfold signViaWallet
  repeat' split
  all_goals intro h
  all_goals try simp only [Except.error.injEq] at h
  all_goals first | exact ⟨_, h.symm⟩ | simp_all

/-- Every error thrown by `connect` is a taxonomy error and is emitted
as an `error` event before rethrowing. -/
theorem connect_error_wrapped (s : AdapterState) (env : Env) (e : Err) :
    (connect s env).result = .error e →
    e.inTaxonomy = true ∧ Event.emitError e ∈ (connect s env).events := by
  unfold connect
  dsimp only
  repeat' split
  all_goals intro h
  all_goals simp only [MethodResult.result, Except.error.injEq] at h
  all_goals try subst h
  all_goals simp_all [Err.inTaxonomy]

/-- Every error thrown by `signTransaction` is a taxonomy error and is
emitted as an `error` event before rethrowing. -/
theorem signTransaction_error_wrapped (s : AdapterState) (env : Env) (t : Transaction)
    (e : Err) :
    (signTransaction s env t).result = .error e →
    e.inTaxonomy = true ∧ Event.emitError e ∈ (signTransaction s env t).events := by
  unfold signTransaction
  dsimp only
  repeat' split
  all_goals intro h
  all_goals simp only [MethodResult.result, Except.error.injEq] at h
  all_goals try subst h
  · simp_all [Err.inTaxonomy]
  · rename_i he
    obtain ⟨m, hm⟩ := signViaWallet_error _ _ _ he
    subst hm
    simp_all [Err.inTaxonomy]
  · simp_all

/-- Every error thrown by `signMessage` is a taxonomy error and is
emitted as an `error` event before rethrowing. -/
theorem signMessage_error_wrapped (s : AdapterState) (env : Env) (msg : List Nat) (e : Err) :
    (signMessage s env msg).result = .error e →
    e.inTaxonomy = true ∧ Event.emitError e ∈ (signMessage s env msg).events := by
  unfold signMessage
  dsimp only
  repeat' split
  all_goals intro h
  all_goals simp only [MethodResult.result, Except.error.injEq] at h
  all_goals try subst h
  all_goals simp_all [Err.inTaxonomy]

/-- Method `signTransaction` never mutates the adapter fields. -/
theorem signTransaction_state (s : AdapterState) (env : Env) (t : Transaction) :
    (signTransaction s env t).state = s := by
  unfold signTransaction
  dsimp only
  repeat' split
  all_goals rfl

/-- Method `signMessage` never mutates the adapter fields. -/
theorem signMessage_state (s : AdapterState) (env : Env) (m : List Nat) :
    (signMessage s env m).state = s := by
  unfold signMessage
  dsimp only
  repeat' split
  all_goals rfl

/-- Method `signAllTransactions` never mutates the adapter fields. -/
theorem signAllTransactions_state (env : Env) (s : AdapterState) (ts : List Transaction) :
    (signAllTransactions env s ts).state = s := by
  induction ts generalizing s with
  | nil => rfl
  | cons t rest ih =>
      unfold signAllTransactions
      dsimp only
      split
      · exact signTransaction_state s env t
      · simp [signTransaction_state, ih]

/-- An error raised by `signAllTransactions` comes wrapped from
`signTransaction`, which already emitted it. -/
theorem signAllTransactions_error_wrapped (env : Env) (s : AdapterState)
    (ts : List Transaction) (e : Err) :
    (signAllTransactions env s ts).result = .error e →
    e.inTaxonomy = true ∧ Event.emitError e ∈ (signAllTransactions env s ts).events := by
  induction ts generalizing s with
  | nil => intro h; simp [signAllTransactions] at h
  | cons t rest ih =>
      intro h
      unfold signAllTransactions at h ⊢
      dsimp only at h ⊢
      rcases hr : (signTransaction s env t).result with e1 | t1
      · rw [hr] at h
        dsimp only at h ⊢
        obtain ⟨h1, h2⟩ := signTransaction_error_wrapped s env t e1 hr
        simp only [MethodResult.result, Except.error.injEq] at h
        subst h
        exact ⟨h1, h2⟩
      · rw [hr] at h
        dsimp only at h ⊢
        simp only [MethodResult.result, Except.map] at h
        rcases hr2 : (signAllTransactions env (signTransaction s env t).state rest).result
          with e2 | l2
        · rw [hr2] at h
          simp only [Except.error.injEq] at h
          subst h
          obtain ⟨h1, h2⟩ := ih _ hr2
          refine ⟨h1, ?_⟩
          simp [h2]
        · rw [hr2] at h
          simp at h

/-- A `connect` call that returns normally either took the early no-op
exit (no events, only the connecting flag touched) or completed a full
connection (one underlying connection, then the connect event). -/
theorem connect_ok_cases (s : AdapterState) (env : Env) :
    (connect s env).result = .ok () →
    ((connect s env).events = [] ∧
      (connect s env).state = { s with _connecting := false }) ∨
    ((connect s env).events = [.walletConnect, .emitConnect] ∧
      (connect s env).state._wallet = some ()) := by
  unfold connect
  dsimp only
  repeat' split
  all_goals intro h
  all_goals first
    | exact Or.inl ⟨rfl, rfl⟩
    | exact Or.inr ⟨rfl, rfl⟩
    | simp at h

/-- One `connect` call issues at most one underlying wallet connection. -/
theorem connect_le_one (s : AdapterState) (env : Env) :
    countWalletConnect (connect s env).events ≤ 1 := by
  unfold connect
  dsimp only
  repeat' split
  all_goals simp [countWalletConnect, isWalletConnectEv, List.filter]

/-- When the guard reports connected, `connect` is a no-op apart from
clearing the connecting flag in the finally clause. -/
theorem connect_noop (s : AdapterState) (env : Env) (h : connected s env = true) :
    connect s env =
      { state := { s with _connecting := false }, result := .ok (), events := [] } := by
  unfold connect
  rw [if_pos]
  rw [h]
  rfl

/-- Method `connect` preserves the key/handle invariant. -/
theorem connect_inv (s : AdapterState) (env : Env) (h : inv s) :
    inv (connect s env).state := by
  unfold connect
  dsimp only
  repeat' split
  all_goals simp_all [inv]

/-- Method `disconnect` preserves the key/handle invariant. -/
theorem disconnect_inv (s : AdapterState) (env : Env) (h : inv s) :
    inv (disconnect s env).state := by
  unfold disconnect
  dsimp only
  repeat' split
  all_goals simp_all [inv]

/-- A failed `connect` leaves the handle and key fields untouched. -/
theorem connect_error_fields (s : AdapterState) (env : Env) (e : Err) :
    (connect s env).result = .error e →
    (connect s env).state._wallet = s._wallet ∧
    (connect s env).state._publicKey = s._publicKey := by
  unfold connect
  dsimp only
  repeat' split
  all_goals intro h
  all_goals first | exact ⟨rfl, rfl⟩ | simp at h

/-- Every public method invocation preserves the key/handle invariant. -/
theorem step_inv (s : AdapterState) (op : Op) (h : inv s) : inv (step s op) := by
  cases op with
  | opConnect env => exact connect_inv s env h
  | opDisconnect env => exact disconnect_inv s env h
  | opSignTransaction env t => rw [step, signTransaction_state]; exact h
  | opSignAllTransactions env ts => rw [step, signAllTransactions_state]; exact h
  | opSignMessage env m => rw [step, signMessage_state]; exact h

/-- Every reachable adapter state satisfies the key/handle invariant. -/
theorem run_inv (ops : List Op) : inv (run ops) := by
  suffices h : ∀ s, inv s → inv (ops.foldl step s) from h initialState (by decide)
  induction ops with
  | nil => intro s h; exact h
  | cons op rest ih => intro s h; exact ih _ (step_inv s op h)

/-- Claim C1 counterexample: in the reachable connected state, when the
injected wallet's own `disconnect` rejects, the public method
`disconnect()` re-raises the raw error unwrapped (not a taxonomy kind)
and its event trace is just the underlying wallet call — no `error`
event is emitted, refuting the claim that every public method wraps and
emits underlying failures. -/
theorem disconnect_unwrapped_error_cex :
    (connect initialState envOk).state = connectedState ∧
    (disconnect connectedState envDiscFail).result = .error (.jsError "boom") ∧
    Err.inTaxonomy (.jsError "boom") = false ∧
    (disconnect connectedState envDiscFail).events = [Event.walletDisconnect] :=
  ⟨rfl, rfl, rfl, rfl⟩

/-- Claim C1 (amended): `connect`, `signTransaction`, `signMessage` and
`signAllTransactions` wrap every underlying failure in a taxonomy kind,
emit an `error` event and re-raise it; `disconnect` alone does not
guard the wallet's own disconnect call. -/
theorem publicMethod_error_wrap_emit (s : AdapterState) (env : Env) :
    (∀ e, (connect s env).result = .error e →
      e.inTaxonomy = true ∧ Event.emitError e ∈ (connect s env).events) ∧
    (∀ t e, (signTransaction s env t).result = .error e →
      e.inTaxonomy = true ∧ Event.emitError e ∈ (signTransaction s env t).events) ∧
    (∀ m e, (signMessage s env m).result = .error e →
      e.inTaxonomy = true ∧ Event.emitError e ∈ (signMessage s env m).events) ∧
    (∀ ts e, (signAllTransactions env s ts).result = .error e →
      e.inTaxonomy = true ∧ Event.emitError e ∈ (signAllTransactions env s ts).events) :=
  ⟨connect_error_wrapped s env, fun t => signTransaction_error_wrapped s env t,
   fun m => signMessage_error_wrapped s env m,
   fun ts => signAllTransactions_error_wrapped env s ts⟩

/-- Claim C1 witness: the wrapped-and-emitted property evaluated on the
never-connected state and a concrete transaction. -/
theorem publicMethod_error_wrap_emit_witness :
    Err.inTaxonomy .walletNotConnectedError = true ∧
    Event.emitError .walletNotConnectedError ∈
      (signTransaction initialState envOk tx0).events :=
  (publicMethod_error_wrap_emit initialState envOk).2.1 tx0 .walletNotConnectedError rfl

/-- Claim C2 counterexample: when the wallet's own disconnect rejects,
`disconnect()` does clear `publicKey` but never reaches the
`disconnect` emission — its whole event trace is the underlying wallet
call — refuting the claim that a `disconnect` event is emitted for
every behaviour of the injected wallet's disconnect. -/
theorem disconnect_missing_event_cex :
    (connect initialState envOk).state = connectedState ∧
    (disconnect connectedState envDiscFail).state._publicKey = none ∧
    (disconnect connectedState envDiscFail).events = [Event.walletDisconnect] :=
  ⟨rfl, rfl, rfl⟩

/-- Claim C2 (amended): `disconnect()` always clears `publicKey`
(including when never connected); it emits `disconnect` whenever the
wallet's own disconnect does not fail — in particular always when no
handle is stored — but when the stored wallet's disconnect rejects, the
raw error propagates and no `disconnect` event is emitted. -/
theorem disconnect_clears_and_emits (s : AdapterState) (env : Env) (hinv : inv s) :
    (disconnect s env).state._publicKey = none ∧
    ((s._wallet = none ∨ env.stored.disconnectResult = .ok ()) →
      Event.emitDisconnect ∈ (disconnect s env).events) ∧
    (∀ m, s._wallet = some () → env.stored.disconnectResult = .error m →
      (disconnect s env).result = .error (.jsError m) ∧
      Event.emitDisconnect ∉ (disconnect s env).events) := by
  unfold disconnect
  rcases hw : s._wallet with _ | u
  · dsimp only
    refine ⟨hinv.mpr hw, fun _ => ?_, fun m hm => ?_⟩
    · simp
    · simp at hm
  · dsimp only
    rcases hd : env.stored.disconnectResult with m | u2
    · dsimp only
      refine ⟨rfl, ?_, ?_⟩
      · intro hor
        rcases hor with h1 | h2
        · simp at h1
        · simp at h2
      · intro m2 _ hm2
        simp only [Except.error.injEq] at hm2
        subst hm2
        exact ⟨rfl, by simp⟩
    · dsimp only
      refine ⟨rfl, fun _ => ?_, ?_⟩
      · simp
      · intro m2 _ hm2
        simp at hm2

/-- Claim C2 witness: disconnecting the never-connected adapter leaves
`publicKey` null. -/
theorem disconnect_clears_and_emits_witness :
    (disconnect initialState envOk).state._publicKey = none :=
  (disconnect_clears_and_emits initialState envOk (by decide)).1

/-- Claim C3 counterexample: after a first successful `connect()` and
no `disconnect()`, a second `connect()` performs a second underlying
wallet connection when the injected wallet reports
`isConnected() = false`, refuting the claim for every behaviour of the
wallet's `isConnected` reporting. -/
theorem second_connect_reconnects_cex :
    (connect initialState envOk).result = .ok () ∧
    countWalletConnect ((connect initialState envOk).events ++
      (connect (connect initialState envOk).state envReconn).events) = 2 := by
  refine ⟨rfl, ?_⟩
  decide

/-- Claim C3 (amended): two `connect()` calls with no intervening
disconnect perform at most one underlying wallet connection, provided
the injected wallet still reports `isConnected() = true` at the second
call — the no-op guard delegates to that report. -/
theorem second_connect_no_reconnection (s : AdapterState) (env1 env2 : Env)
    (hsucc : (connect s env1).result = .ok ())
    (hconn : env2.stored.isConnected = true) :
    countWalletConnect ((connect s env1).events ++
      (connect (connect s env1).state env2).events) ≤ 1 := by
  rcases connect_ok_cases s env1 hsucc with ⟨hev, hst⟩ | ⟨hev, hw⟩
  · rw [hev]
    simp only [List.nil_append]
    exact connect_le_one _ env2
  · have hc2 : connected (connect s env1).state env2 = true := by
      unfold connected; rw [hw, hconn]; rfl
    rw [connect_noop _ env2 hc2, hev]
    simp [countWalletConnect, isWalletConnectEv, List.filter]

/-- Claim C3 witness: two connects against the well-behaved wallet
yield a single underlying connection. -/
theorem second_connect_no_reconnection_witness :
    countWalletConnect ((connect initialState envOk).events ++
      (connect (connect initialState envOk).state envOk).events) ≤ 1 :=
  second_connect_no_reconnection initialState envOk envOk rfl rfl

/-- Claim C4: in every reachable state `publicKey` is null exactly when
the wallet handle is null; every public operation preserves that
predicate; the signing methods never mutate the fields; `disconnect`
either clears both fields or leaves the state unchanged; and a failed
`connect` leaves both fields untouched — so the fields are set only
inside a successful `connect` and cleared only inside `disconnect`. -/
theorem publicKey_wallet_invariant :
    (∀ ops, inv (run ops)) ∧
    (∀ s op, inv s → inv (step s op)) ∧
    (∀ s env t, (signTransaction s env t).state = s) ∧
    (∀ s env m, (signMessage s env m).state = s) ∧
    (∀ env s ts, (signAllTransactions env s ts).state = s) ∧
    (∀ s env, ((disconnect s env).state._publicKey = none ∧
        (disconnect s env).state._wallet = none) ∨ (disconnect s env).state = s) ∧
    (∀ s env e, (connect s env).result = .error e →
      (connect s env).state._wallet = s._wallet ∧
      (connect s env).state._publicKey = s._publicKey) := by
  refine ⟨run_inv, step_inv, signTransaction_state, signMessage_state,
    signAllTransactions_state, ?_, connect_error_fields⟩
  intro s env
  unfold disconnect
  dsimp only
  repeat' split
  all_goals first | exact Or.inl ⟨rfl, rfl⟩ | exact Or.inr rfl

/-- Claim C4 witness: the invariant-preservation conjunct evaluated at
the constructor state and a concrete connect invocation. -/
theorem publicKey_wallet_invariant_witness :
    inv (step initialState (Op.opConnect envOk)) :=
  publicKey_wallet_invariant.2.1 initialState (Op.opConnect envOk) (by decide)

/-- Claim C5 counterexample: from the reachable connected state, when
the wallet reports `isConnected() = false` and its `connect()` returns
a malformed account, `connect()` does raise `WalletPublicKeyError` but
`publicKey` is the old non-null key on return, refuting the claim that
`publicKey` is null after every such failure. -/
theorem connect_invalid_account_stale_key_cex :
    (connect initialState envOk).state = connectedState ∧
    wStale.connectResult = .ok [badPkStr] ∧
    parsePublicKey badPkStr = none ∧
    (connect connectedState envStale).result =
      .error (.walletPublicKeyError invalidPublicKeyMsg) ∧
    (connect connectedState envStale).state._publicKey = some goodPk := by
  refine ⟨rfl, rfl, by decide, rfl, rfl⟩

/-- Claim C5 (amended): when the guard does not trigger and the wallet
returns an account list whose first element does not parse as a public
key, `connect()` raises `WalletPublicKeyError` and leaves `publicKey`
unchanged — in particular still null whenever it was null before the
call, as in the never-connected state. -/
theorem connect_invalid_account_error (s : AdapterState) (env : Env)
    (w : WalletBehavior) (accounts : List String)
    (hguard : (connected s env || s._connecting) = false)
    (hsol : env.sol = some w) (hid : w.isCoin98 = true)
    (hacc : w.connectResult = .ok accounts)
    (hbad : accounts.head?.bind parsePublicKey = none) :
    (connect s env).result = .error (.walletPublicKeyError invalidPublicKeyMsg) ∧
    (connect s env).state._publicKey = s._publicKey := by
  unfold connect
  rw [hguard]
  simp only [Bool.false_eq_true, if_false]
  rw [hsol]
  dsimp only
  rw [hid]
  simp only [Bool.not_true, Bool.false_eq_true, if_false]
  rw [hacc]
  dsimp only
  rw [hbad]
  exact ⟨rfl, rfl⟩

/-- Claim C5 witness: connecting from the never-connected state against
the malformed-account wallet fails with `WalletPublicKeyError` and
leaves `publicKey` null. -/
theorem connect_invalid_account_error_witness :
    (connect initialState envStale).result =
      .error (.walletPublicKeyError invalidPublicKeyMsg) ∧
    (connect initialState envStale).state._publicKey = initialState._publicKey :=
  connect_invalid_account_error initialState envStale wStale [badPkStr] rfl rfl rfl rfl
    (by decide)

/-- Claim C6: with no active wallet handle, `signTransaction` throws
`WalletNotConnectedError` (emitting it) and issues no request to the
injected wallet. -/
theorem signTransaction_not_connected (s : AdapterState) (env : Env) (t : Transaction)
    (h : s._wallet = none) :
    signTransaction s env t =
      { state := s, result := .error .walletNotConnectedError,
        events := [.emitError .walletNotConnectedError] } ∧
    ∀ m ps, Event.walletRequest m ps ∉ (signTransaction s env t).events := by
  have h1 : signTransaction s env t =
      { state := s, result := .error .walletNotConnectedError,
        events := [.emitError .walletNotConnectedError] } := by
    unfold signTransaction; rw [h]
  refine ⟨h1, ?_⟩
  intro m ps hmem
  rw [h1] at hmem
  simp at hmem

/-- Claim C6 witness: signing from the never-connected state fails with
`WalletNotConnectedError` and issues no wallet request. -/
theorem signTransaction_not_connected_witness :
    signTransaction initialState envOk tx0 =
      { state := initialState, result := .error .walletNotConnectedError,
        events := [.emitError .walletNotConnectedError] } :=
  (signTransaction_not_connected initialState envOk tx0 rfl).1

/-- Claim C7: when every per-transaction signing request succeeds,
`signAllTransactions` issues exactly one request per input transaction,
in input order, with the default 500ms sleep after each awaited sign,
and returns the signed transactions in input order. -/
theorem signAllTransactions_sequential (env : Env) (s : AdapterState)
    (ts : List Transaction) (hw : s._wallet = some ())
    (hok : ∀ t ∈ ts, ∃ t2, signViaWallet env.stored t = .ok t2) :
    signAllTransactions env s ts =
      { state := s,
        result := .ok (ts.map (signedOf env.stored)),
        events := ts.flatMap fun t =>
          [.walletRequest solSignMethod [.tx t], .slept sleepDefaultMs] } := by
  revert hok
  induction ts with
  | nil => intro _; rfl
  | cons t rest ih =>
      intro hok
      obtain ⟨t2, ht⟩ := hok t (List.mem_cons_self t rest)
      have hsign : signTransaction s env t =
          { state := s, result := .ok t2,
            events := [.walletRequest solSignMethod [.tx t]] } := by
        unfold signTransaction
        rw [hw]
        dsimp only
        rw [ht]
      have hsigned : signedOf env.stored t = t2 := by unfold signedOf; rw [ht]
      unfold signAllTransactions
      dsimp only
      rw [hsign]
      dsimp only
      rw [ih (fun t' ht' => hok t' (List.mem_cons_of_mem t ht'))]
      simp [hsigned, Except.map]

/-- Claim C7 witness: signing two concrete transactions produces the
ordered request/sleep trace and the signed list in input order. -/
theorem signAllTransactions_sequential_witness :
    signAllTransactions envOk connectedState [tx0, tx1] =
      { state := connectedState,
        result := .ok ([tx0, tx1].map (signedOf envOk.stored)),
        events := [tx0, tx1].flatMap fun t =>
          [.walletRequest solSignMethod [.tx t], .slept sleepDefaultMs] } :=
  signAllTransactions_sequential envOk connectedState [tx0, tx1] rfl
    (fun t _ => ⟨addSignature t goodPk (List.replicate 32 0), rfl⟩)

/-- Claim C8: `signMessage` fails with `WalletNotConnectedError` when no
handle is active; otherwise it sends the UTF-8 decoding of the input
bytes through `wallet.request` and returns the returned `sig` string
re-encoded as UTF-8 bytes, whose decoding is exactly that string; a
failing request is wrapped as `WalletSignTransactionError`. -/
theorem signMessage_utf8_roundtrip (s : AdapterState) (env : Env) (message : List Nat) :
    (s._wallet = none →
      signMessage s env message =
        { state := s, result := .error .walletNotConnectedError,
          events := [.emitError .walletNotConnectedError] }) ∧
    (s._wallet = some () →
      (∀ response,
        env.stored.requestResult solSignMethod [.str (textDecode message)] = .ok response →
        signMessage s env message =
          { state := s, result := .ok (utf8Encode response.sig),
            events := [.walletRequest solSignMethod [.str (textDecode message)]] } ∧
        textDecode (utf8Encode response.sig) = response.sig) ∧
      (∀ m,
        env.stored.requestResult solSignMethod [.str (textDecode message)] = .error m →
        signMessage s env message =
          { state := s, result := .error (.walletSignTransactionError m),
            events := [.walletRequest solSignMethod [.str (textDecode message)],
                       .emitError (.walletSignTransactionError m)] })) := by
  refine ⟨?_, ?_⟩
  · intro h; unfold signMessage; rw [h]
  · intro hw
    refine ⟨?_, ?_⟩
    · intro response hr
      refine ⟨?_, textDecode_utf8Encode response.sig⟩
      unfold signMessage
      rw [hw]
      dsimp only
      rw [hr]
    · intro m hr
      unfold signMessage
      rw [hw]
      dsimp only
      rw [hr]

/-- Claim C8 witness: signing concrete bytes against the well-behaved
wallet returns the re-encoded signature whose decoding is exactly the
wallet's string. -/
theorem signMessage_utf8_roundtrip_witness :
    signMessage connectedState envOk [104, 105] =
      { state := connectedState, result := .ok (utf8Encode resp0.sig),
        events := [.walletRequest solSignMethod [.str (textDecode [104, 105])]] } ∧
    textDecode (utf8Encode resp0.sig) = resp0.sig :=
  ((signMessage_utf8_roundtrip connectedState envOk [104, 105]).2 rfl).1 resp0 rfl

/-- Claim C9: every execution of `connect()` — no-op, success or any
failure — exits with the connecting flag false, because the finally
clause clears it unconditionally. -/
theorem connect_clears_connecting_flag :
    ∀ (s : AdapterState) (env : Env), (connect s env).state._connecting = false := by
  intro s env
  unfold connect
  dsimp only
  repeat' split
  all_goals rfl

/-- Claim C10: the `connected` getter is delegated to the injected
wallet — it is the conjunction of a handle being stored and the
wallet's own `isConnected()` report, it is false whenever no handle is
stored, and after a successful `connect` it can be false while
`publicKey` is non-null, when the wallet reports `isConnected() = false`. -/
theorem connected_delegates_to_wallet :
    (∀ s env, connected s env = (s._wallet.isSome && env.stored.isConnected)) ∧
    (∀ pk env, connected { _connecting := false, _wallet := none, _publicKey := pk } env
      = false) ∧
    ((connect initialState envOk).state._publicKey = some goodPk ∧
      connected (connect initialState envOk).state envReconn = false) := by
  refine ⟨fun s env => rfl, fun pk env => rfl, by decide⟩

end Coin98
